import Mathlib

/-!
# PackageKit engine (`src/pk-engine.c`): job registry and dispatch

A shallow embedding of the engine object of `pk-engine.c` and the properties of
its job registry, conflict check and signal relay.

* The engine state is the registry `priv->array`, the function-local
  `static guint job` of `pk_engine_new_task`, and a log of the calls the engine
  makes on its collaborators (`g_signal_connect`, `pk_task_set_job`,
  `g_ptr_array_add`, `g_signal_emit`, the `pk_task_*` start calls), in program
  order.
* `guint` arithmetic wraps modulo `G_MAXUINT + 1`.
* The worker (`PkTask`, `pk-task.c`) and the enumerations of
  `pk-task-common.h` are not part of `pk-engine.c`; they are modelled from the
  specification where the engine calls them.
* The `g_return_val_if_fail (engine != NULL ...)` guards never fire on a value of
  type `PkEngine`; `g_debug` output is not modelled.
* `g_signal_emit` runs the handlers connected to the emitted engine signal before it
  returns. The plain definitions are the engine with no handler connected; the
  `_handled` definitions take the handler of job-list-changed as a parameter.
* The registry is a `GPtrArray`, whose `len` field is a `guint`; it is modelled as a
  list, and statements about whole process runs say where they need the list to be
  such an array (at most `G_MAXUINT` entries).
-/

namespace PackageKit

/-! ## glib basics -/

/-- Largest value of a glib `guint` (a 32-bit unsigned integer). -/
def G_MAXUINT : Nat := 4294967295

/-- Reduction of a natural number to the `guint` range: unsigned arithmetic wraps. -/
def guint (n : Nat) : Nat := n % (G_MAXUINT + 1)

/-- Argument values carried by a `g_signal_emit` call of the engine. -/
inductive GValue
  | uint (n : Nat)
  | string (s : String)
  | uintArray (l : List Nat)
  deriving DecidableEq, Repr

/-- Error codes of `pk_engine_error_get_type`: only `PermissionDenied` is registered. -/
inductive PkEngineError
  | PK_ENGINE_ERROR_DENIED
  deriving DecidableEq, Repr

/-- The `GError` set by `g_set_error (error, PK_ENGINE_ERROR, code, message)`. -/
structure GError where
  code : PkEngineError
  message : String
  deriving DecidableEq, Repr

/-! ## The worker collaborator -/

/-- Modelled from the spec: the closed set of operation kinds (section 3,
"Operation Kind"); one `pk_task_*` start call of `pk-task.h` per kind. -/
inductive OperationKind
  | getUpdates
  | updateSystem
  | findPackages
  | getDependencies
  | removePackages
  | removePackagesWithDependencies
  | installPackages
  deriving DecidableEq, Repr

/-- Modelled from the spec: `PkTaskExit` of `pk-task-common.h` (not in src); a worker
finishes with success or failure. -/
inductive PkTaskExit
  | success
  | failed
  deriving DecidableEq, Repr

/-- Modelled from the spec: `PkTaskStatus` of `pk-task-common.h` (not in src); the
worker state is idle, running one operation kind, or finished (section 3,
"Worker State"). -/
inductive PkTaskStatus
  | idle
  | running (kind : OperationKind)
  | finished (exit : PkTaskExit)
  deriving DecidableEq, Repr

/-- The status constant `pk_engine_update_system` compares against: the worker is
running update-system. -/
def PK_TASK_STATUS_UPDATE : PkTaskStatus := PkTaskStatus.running OperationKind.updateSystem

/-- Modelled from the spec: the Worker Unit `PkTask` of `pk-task.c` (not in src). It
accepts a job identifier assignment and reports its current state; `status = none`
stands for `pk_task_get_job_status` returning FALSE. -/
structure PkTask where
  job : Nat
  status : Option PkTaskStatus
  deriving DecidableEq, Repr

/-- Modelled from the spec: `pk_task_new` of `pk-task.c`; a fresh worker is idle and
has no job identifier assigned yet. -/
def pk_task_new : PkTask := { job := 0, status := some PkTaskStatus.idle }

/-- Modelled from the spec: `pk_task_set_job` of `pk-task.c`, the job identifier
assignment the worker accepts. -/
def pk_task_set_job (task : PkTask) (job : Nat) : PkTask := { task with job := job }

/-- Modelled from the spec: `pk_task_get_job` of `pk-task.c`, reading the assigned
identifier back. -/
def pk_task_get_job (task : PkTask) : Nat := task.job

/-- Modelled from the spec: `pk_task_get_job_status` of `pk-task.c`; `some status` is a
TRUE return with `*status` written, `none` a FALSE return. -/
def pk_task_get_job_status (task : PkTask) : Option PkTaskStatus := task.status

/-- Modelled from the spec: the effect of a `pk_task_*` start call of `pk-task.c` on the
worker: from the moment it is started it runs (and reports) the requested operation
kind. -/
def pk_task_start (kind : OperationKind) (task : PkTask) : PkTask :=
  { task with status := some (PkTaskStatus.running kind) }

/-- Modelled from the spec: `pk_task_get_updates` of `pk-task.c`. -/
def pk_task_get_updates (task : PkTask) : PkTask :=
  pk_task_start OperationKind.getUpdates task

/-- Modelled from the spec: `pk_task_update_system` of `pk-task.c`. -/
def pk_task_update_system (task : PkTask) : PkTask :=
  pk_task_start OperationKind.updateSystem task

/-- Modelled from the spec: `pk_task_find_packages` of `pk-task.c`. -/
def pk_task_find_packages (task : PkTask) (_search : String) : PkTask :=
  pk_task_start OperationKind.findPackages task

/-- Modelled from the spec: `pk_task_get_dependencies` of `pk-task.c`. -/
def pk_task_get_dependencies (task : PkTask) (_package : String) : PkTask :=
  pk_task_start OperationKind.getDependencies task

/-- Modelled from the spec: `pk_task_remove_packages` of `pk-task.c`. -/
def pk_task_remove_packages (task : PkTask) (_packages : List String) : PkTask :=
  pk_task_start OperationKind.removePackages task

/-- Modelled from the spec: `pk_task_remove_packages_with_dependencies` of
`pk-task.c`. -/
def pk_task_remove_packages_with_dependencies (task : PkTask)
    (_packages : List String) : PkTask :=
  pk_task_start OperationKind.removePackagesWithDependencies task

/-- Modelled from the spec: `pk_task_install_packages` of `pk-task.c`. -/
def pk_task_install_packages (task : PkTask) (_packages : List String) : PkTask :=
  pk_task_start OperationKind.installPackages task

/-! ## Engine state -/

/-- The four signals of a worker that `pk_engine_new_task` connects a callback to. -/
inductive PkTaskSignal
  | jobStatusChanged
  | percentageCompleteChanged
  | packages
  | finished
  deriving DecidableEq, Repr

/-- The engine signals registered in `pk_engine_class_init` (the `signals` enum). -/
inductive SignalId
  | JOB_LIST_CHANGED
  | JOB_STATUS_CHANGED
  | PERCENTAGE_COMPLETE_CHANGED
  | PACKAGES
  | FINISHED
  deriving DecidableEq, Repr

/-- A dispatch request: the operation and the parameters the caller passes. -/
inductive Operation
  | getUpdates
  | updateSystem
  | findPackages (search : String)
  | getDependencies (package : String)
  | removePackages (packages : List String)
  | removePackagesWithDependencies (packages : List String)
  | installPackages (packages : List String)
  deriving DecidableEq, Repr

/-- The operation kind a dispatch request asks for. -/
def Operation.kind : Operation → OperationKind
  | Operation.getUpdates => OperationKind.getUpdates
  | Operation.updateSystem => OperationKind.updateSystem
  | Operation.findPackages _ => OperationKind.findPackages
  | Operation.getDependencies _ => OperationKind.getDependencies
  | Operation.removePackages _ => OperationKind.removePackages
  | Operation.removePackagesWithDependencies _ => OperationKind.removePackagesWithDependencies
  | Operation.installPackages _ => OperationKind.installPackages

/-- One call the engine makes on a collaborator; the engine log lists them in program
order. `signalConnect` and `taskSetJob` act on the task under construction, the
others name the task by its job identifier. -/
inductive Action
  | taskNew
  | signalConnect (detailed_signal : PkTaskSignal)
  | taskSetJob (job : Nat)
  | arrayAdd (job : Nat)
  | signalEmit (signal : SignalId) (args : List GValue)
  | taskStart (job : Nat) (op : Operation)
  deriving DecidableEq, Repr

/-- The engine: `priv->array` (the registry, in insertion order), the
`static guint job` counter of `pk_engine_new_task`, and the log of collaborator
calls made so far. -/
structure PkEngine where
  array : List PkTask
  job : Nat
  trace : List Action
  deriving DecidableEq, Repr

/-- The engine after `pk_engine_init` in a fresh process: `g_ptr_array_new ()`, the
static counter at its initial value 0, nothing logged. -/
def pk_engine_init : PkEngine := { array := [], job := 0, trace := [] }

/-- Append one collaborator call to the engine log. -/
def PkEngine.log (engine : PkEngine) (a : Action) : PkEngine :=
  { engine with trace := engine.trace ++ [a] }

/-- The engine signals emitted in a log, in order. -/
def emissions : List Action → List (SignalId × List GValue)
  | [] => []
  | Action.signalEmit signal args :: rest => (signal, args) :: emissions rest
  | _ :: rest => emissions rest

/-! ## `pk-engine.c` -/

/-- The body of `pk_engine_create_job_list`: the loop appends `pk_task_get_job` of
every registry entry, in index order, to a new array. -/
def pk_engine_create_job_list (engine : PkEngine) : List Nat :=
  engine.array.foldl (fun job_list task => job_list ++ [pk_task_get_job task]) []

/-- The body of `pk_engine_job_list_changed`: build the job list and emit
`job-list-changed` with it. -/
def pk_engine_job_list_changed (engine : PkEngine) : PkEngine :=
  let job_list := pk_engine_create_job_list engine
  engine.log (Action.signalEmit SignalId.JOB_LIST_CHANGED [GValue.uintArray job_list])

/-- The body of `pk_engine_job_status_changed_cb`: re-emit the status change as
`job-status-changed (job, status_text, package)` with the fixed package "foo". The
text table `pk_task_status_to_text` of `pk-task-common.c` is a parameter. -/
def pk_engine_job_status_changed_cb (pk_task_status_to_text : PkTaskStatus → String)
    (task : PkTask) (status : PkTaskStatus) (engine : PkEngine) : PkEngine :=
  let job := pk_task_get_job task
  let status_text := pk_task_status_to_text status
  let package := "foo"
  engine.log (Action.signalEmit SignalId.JOB_STATUS_CHANGED
    [GValue.uint job, GValue.string status_text, GValue.string package])

/-- The body of `pk_engine_percentage_complete_changed_cb`: a debug message only. -/
def pk_engine_percentage_complete_changed_cb (_task : PkTask) (_percentage : Nat)
    (engine : PkEngine) : PkEngine :=
  engine

/-- The body of `pk_engine_packages_cb`: a debug message only. -/
def pk_engine_packages_cb (_task : PkTask) (_exit : PkTaskExit)
    (engine : PkEngine) : PkEngine :=
  engine

/-- The body of `pk_engine_finished_cb`: a debug message only. -/
def pk_engine_finished_cb (_task : PkTask) (_exit : PkTaskExit)
    (engine : PkEngine) : PkEngine :=
  engine

/-- The body of `pk_engine_new_task`: increment the static counter, allocate a
worker, connect the four callbacks, assign the job identifier, append the worker to
the registry and emit `job-list-changed`. Returns the new task and the engine. -/
def pk_engine_new_task (engine : PkEngine) : PkTask × PkEngine :=
  let job := guint (engine.job + 1)
  let engine := { engine with job := job }
  let task := pk_task_new
  let engine := engine.log Action.taskNew
  let engine := engine.log (Action.signalConnect PkTaskSignal.jobStatusChanged)
  let engine := engine.log (Action.signalConnect PkTaskSignal.percentageCompleteChanged)
  let engine := engine.log (Action.signalConnect PkTaskSignal.packages)
  let engine := engine.log (Action.signalConnect PkTaskSignal.finished)
  let task := pk_task_set_job task job
  let engine := engine.log (Action.taskSetJob job)
  let engine := { engine with array := engine.array ++ [task] }
  let engine := engine.log (Action.arrayAdd (pk_task_get_job task))
  let engine := pk_engine_job_list_changed engine
  (task, engine)

/-- A start call on the task `pk_engine_new_task` returned. The registry holds that
task by pointer as its last entry, so the started worker replaces the last entry; the
call is logged. -/
def PkEngine.started (engine : PkEngine) (task : PkTask) (op : Operation) : PkEngine :=
  { engine with
    array := engine.array.dropLast ++ [task]
    trace := engine.trace ++ [Action.taskStart (pk_task_get_job task) op] }

/-- The body of `pk_engine_get_updates`. The result is the gboolean return: `ok job` is
TRUE with `*job` written, `error e` is FALSE with the error set. -/
def pk_engine_get_updates (engine : PkEngine) : PkEngine × Except GError Nat :=
  let (task, engine) := pk_engine_new_task engine
  let task := pk_task_get_updates task
  let engine := engine.started task Operation.getUpdates
  (engine, Except.ok (pk_task_get_job task))

/-- The scan loop of `pk_engine_update_system`: TRUE as soon as a registry entry
answers `pk_task_get_job_status` with TRUE and `PK_TASK_STATUS_UPDATE`. -/
def update_in_progress : List PkTask → Bool
  | [] => false
  | task :: rest =>
    match pk_task_get_job_status task with
    | some status => if status = PK_TASK_STATUS_UPDATE then true else update_in_progress rest
    | none => update_in_progress rest

/-- The body of `pk_engine_update_system`: fail with `PK_ENGINE_ERROR_DENIED` when an
update is in progress, otherwise create a task and start it. -/
def pk_engine_update_system (engine : PkEngine) : PkEngine × Except GError Nat :=
  if update_in_progress engine.array then
    (engine, Except.error
      { code := PkEngineError.PK_ENGINE_ERROR_DENIED
        message := "system update already in progress" })
  else
    let (task, engine) := pk_engine_new_task engine
    let task := pk_task_update_system task
    let engine := engine.started task Operation.updateSystem
    (engine, Except.ok (pk_task_get_job task))

/-- The body of `pk_engine_find_packages`. -/
def pk_engine_find_packages (engine : PkEngine) (search : String) :
    PkEngine × Except GError Nat :=
  let (task, engine) := pk_engine_new_task engine
  let task := pk_task_find_packages task search
  let engine := engine.started task (Operation.findPackages search)
  (engine, Except.ok (pk_task_get_job task))

/-- The body of `pk_engine_get_dependencies`. -/
def pk_engine_get_dependencies (engine : PkEngine) (package : String) :
    PkEngine × Except GError Nat :=
  let (task, engine) := pk_engine_new_task engine
  let task := pk_task_get_dependencies task package
  let engine := engine.started task (Operation.getDependencies package)
  (engine, Except.ok (pk_task_get_job task))

/-- The body of `pk_engine_remove_packages`. -/
def pk_engine_remove_packages (engine : PkEngine) (packages : List String) :
    PkEngine × Except GError Nat :=
  let (task, engine) := pk_engine_new_task engine
  let task := pk_task_remove_packages task packages
  let engine := engine.started task (Operation.removePackages packages)
  (engine, Except.ok (pk_task_get_job task))

/-- The body of `pk_engine_remove_packages_with_dependencies`. -/
def pk_engine_remove_packages_with_dependencies (engine : PkEngine)
    (packages : List String) : PkEngine × Except GError Nat :=
  let (task, engine) := pk_engine_new_task engine
  let task := pk_task_remove_packages_with_dependencies task packages
  let engine := engine.started task (Operation.removePackagesWithDependencies packages)
  (engine, Except.ok (pk_task_get_job task))

/-- The body of `pk_engine_install_packages`. -/
def pk_engine_install_packages (engine : PkEngine) (packages : List String) :
    PkEngine × Except GError Nat :=
  let (task, engine) := pk_engine_new_task engine
  let task := pk_task_install_packages task packages
  let engine := engine.started task (Operation.installPackages packages)
  (engine, Except.ok (pk_task_get_job task))

/-- The body of `pk_engine_get_job_list`: always TRUE, `*job_list` is the created
list. -/
def pk_engine_get_job_list (engine : PkEngine) : List Nat :=
  pk_engine_create_job_list engine

/-- The body of `pk_engine_get_job_status`: returns TRUE without looking the job up;
`ok none` is a TRUE return that wrote neither `*status` nor `*package`. -/
def pk_engine_get_job_status (_engine : PkEngine) (_job : Nat) :
    Except GError (Option (String × String)) :=
  Except.ok none

/-- The body of `pk_engine_cancel_job_try`: returns TRUE without any effect. -/
def pk_engine_cancel_job_try (_engine : PkEngine) (_job : Nat) : Except GError Unit :=
  Except.ok ()

/-! ## Handlers on the engine's job-list-changed signal -/

/-- The body of `pk_engine_job_list_changed` with a handler connected to the engine's
job-list-changed signal: `g_signal_emit` runs the handler, synchronously, before it
returns. -/
def pk_engine_job_list_changed_handled (handler : PkEngine → PkEngine)
    (engine : PkEngine) : PkEngine :=
  handler (pk_engine_job_list_changed engine)

/-- The body of `pk_engine_new_task` with a handler connected to the engine's
job-list-changed signal; the same statements as `pk_engine_new_task`, the last one
running the handler. -/
def pk_engine_new_task_handled (handler : PkEngine → PkEngine) (engine : PkEngine) :
    PkTask × PkEngine :=
  let job := guint (engine.job + 1)
  let engine := { engine with job := job }
  let task := pk_task_new
  let engine := engine.log Action.taskNew
  let engine := engine.log (Action.signalConnect PkTaskSignal.jobStatusChanged)
  let engine := engine.log (Action.signalConnect PkTaskSignal.percentageCompleteChanged)
  let engine := engine.log (Action.signalConnect PkTaskSignal.packages)
  let engine := engine.log (Action.signalConnect PkTaskSignal.finished)
  let task := pk_task_set_job task job
  let engine := engine.log (Action.taskSetJob job)
  let engine := { engine with array := engine.array ++ [task] }
  let engine := engine.log (Action.arrayAdd (pk_task_get_job task))
  let engine := pk_engine_job_list_changed_handled handler engine
  (task, engine)

/-- The body of `pk_engine_update_system` with a handler connected to the engine's
job-list-changed signal. The new task sits in the registry slot `g_ptr_array_add` put
it in (the length of the registry before the call); the start call acts on the task in
that slot, whatever the handler appended behind it. -/
def pk_engine_update_system_handled (handler : PkEngine → PkEngine)
    (engine : PkEngine) : PkEngine × Except GError Nat :=
  if update_in_progress engine.array then
    (engine, Except.error
      { code := PkEngineError.PK_ENGINE_ERROR_DENIED
        message := "system update already in progress" })
  else
    let slot := engine.array.length
    let (task, engine) := pk_engine_new_task_handled handler engine
    let task := pk_task_update_system ((engine.array[slot]?).getD task)
    let engine :=
      { engine with
        array := engine.array.set slot task
        trace := engine.trace ++
          [Action.taskStart (pk_task_get_job task) Operation.updateSystem] }
    (engine, Except.ok (pk_task_get_job task))

/-! ## Dispatch calls and worker events as steps -/

/-- The engine entry point a dispatch request invokes. -/
def dispatch (op : Operation) (engine : PkEngine) : PkEngine × Except GError Nat :=
  match op with
  | Operation.getUpdates => pk_engine_get_updates engine
  | Operation.updateSystem => pk_engine_update_system engine
  | Operation.findPackages search => pk_engine_find_packages engine search
  | Operation.getDependencies package => pk_engine_get_dependencies engine package
  | Operation.removePackages packages => pk_engine_remove_packages engine packages
  | Operation.removePackagesWithDependencies packages =>
    pk_engine_remove_packages_with_dependencies engine packages
  | Operation.installPackages packages => pk_engine_install_packages engine packages

/-- An event a worker emits on one of the four signals the engine connected to. -/
inductive PkTaskEvent
  | jobStatusChanged (status : PkTaskStatus)
  | percentageCompleteChanged (percentage : Nat)
  | packages (exit : PkTaskExit)
  | finished (exit : PkTaskExit)
  deriving DecidableEq, Repr

/-- Modelled from the spec: the worker state after it emitted an event (`pk-task.c` is
not in src): a status change makes the announced status current, finishing makes the
worker finished, the other two events leave its state alone. -/
def pk_task_after_event (task : PkTask) : PkTaskEvent → PkTask
  | PkTaskEvent.jobStatusChanged status => { task with status := some status }
  | PkTaskEvent.finished exit => { task with status := some (PkTaskStatus.finished exit) }
  | PkTaskEvent.percentageCompleteChanged _ => task
  | PkTaskEvent.packages _ => task

/-- The callback `pk_engine_new_task` connected to the signal of an event. -/
def pk_engine_callback (pk_task_status_to_text : PkTaskStatus → String) (task : PkTask)
    (ev : PkTaskEvent) (engine : PkEngine) : PkEngine :=
  match ev with
  | PkTaskEvent.jobStatusChanged status =>
    pk_engine_job_status_changed_cb pk_task_status_to_text task status engine
  | PkTaskEvent.percentageCompleteChanged percentage =>
    pk_engine_percentage_complete_changed_cb task percentage engine
  | PkTaskEvent.packages exit => pk_engine_packages_cb task exit engine
  | PkTaskEvent.finished exit => pk_engine_finished_cb task exit engine

/-- The registry entry at index `worker` emits an event: the worker moves to its new
state and the engine runs the connected callback. No such entry, no event. -/
def pk_task_emit (pk_task_status_to_text : PkTaskStatus → String) (worker : Nat)
    (ev : PkTaskEvent) (engine : PkEngine) : PkEngine :=
  match engine.array[worker]? with
  | none => engine
  | some task =>
    let task := pk_task_after_event task ev
    let engine := { engine with array := engine.array.set worker task }
    pk_engine_callback pk_task_status_to_text task ev engine

/-- One step of the engine life: a dispatch call or a worker event. -/
inductive Step
  | dispatch (op : Operation)
  | event (worker : Nat) (ev : PkTaskEvent)
  deriving DecidableEq, Repr

/-- Run one step; the second component is the job identifier handed to the caller when
the step is a dispatch call that returned TRUE. -/
def step (pk_task_status_to_text : PkTaskStatus → String) (st : Step)
    (engine : PkEngine) : PkEngine × Option Nat :=
  match st with
  | Step.dispatch op =>
    match dispatch op engine with
    | (engine, Except.ok job) => (engine, some job)
    | (engine, Except.error _) => (engine, none)
  | Step.event worker ev => (pk_task_emit pk_task_status_to_text worker ev engine, none)

/-- Run a sequence of steps; the second component lists the job identifiers returned
by the successful dispatch calls, in call order. -/
def run (pk_task_status_to_text : PkTaskStatus → String) :
    List Step → PkEngine → PkEngine × List Nat
  | [], engine => (engine, [])
  | st :: rest, engine =>
    let r := step pk_task_status_to_text st engine
    let rs := run pk_task_status_to_text rest r.1
    (rs.1, r.2.toList ++ rs.2)

/-- A worker reports the state "running update-system". -/
def reports_update (task : PkTask) : Bool :=
  pk_task_get_job_status task = some PK_TASK_STATUS_UPDATE

/-- The assumption on workers: a status-change event announces "running update-system"
only for a worker that already reports it, so a worker enters that state only by being
started through `pk_engine_update_system`. -/
def Step.obeys (engine : PkEngine) : Step → Bool
  | Step.dispatch _ => true
  | Step.event worker (PkTaskEvent.jobStatusChanged status) =>
    if status = PK_TASK_STATUS_UPDATE then
      match engine.array[worker]? with
      | some task => reports_update task
      | none => true
    else true
  | Step.event _ _ => true

/-- Every step of a run obeys the worker assumption in the state it is taken in. -/
def obeys (pk_task_status_to_text : PkTaskStatus → String) :
    List Step → PkEngine → Bool
  | [], _ => true
  | st :: rest, engine =>
    st.obeys engine &&
      obeys pk_task_status_to_text rest (step pk_task_status_to_text st engine).1

/-! ## Basic facts about the embedding -/

/-- The append loop of `pk_engine_create_job_list`, started from any accumulator. -/
theorem foldl_append_job (l : List PkTask) (acc : List Nat) :
    l.foldl (fun job_list task => job_list ++ [pk_task_get_job task]) acc
      = acc ++ l.map pk_task_get_job := by
  induction l generalizing acc with
  | nil => simp
  | cons t rest ih => simp [List.foldl_cons, ih]

/-- The job list is the list of job identifiers of the registry entries, in order. -/
theorem create_job_list_eq_map (engine : PkEngine) :
    pk_engine_create_job_list engine = engine.array.map pk_task_get_job := by
  simp [pk_engine_create_job_list, foldl_append_job]

/-- The emissions of a log split along a concatenation. -/
theorem emissions_append (l₁ l₂ : List Action) :
    emissions (l₁ ++ l₂) = emissions l₁ ++ emissions l₂ := by
  induction l₁ with
  | nil => simp [emissions]
  | cons a rest ih => cases a <;> simp [emissions, ih]

/-- What `pk_engine_new_task` does to the engine, field by field. -/
theorem new_task_spec (engine : PkEngine) :
    pk_engine_new_task engine =
      ({ job := guint (engine.job + 1), status := some PkTaskStatus.idle },
       { array := engine.array ++
           [{ job := guint (engine.job + 1), status := some PkTaskStatus.idle }]
         job := guint (engine.job + 1)
         trace := engine.trace ++
           [Action.taskNew,
            Action.signalConnect PkTaskSignal.jobStatusChanged,
            Action.signalConnect PkTaskSignal.percentageCompleteChanged,
            Action.signalConnect PkTaskSignal.packages,
            Action.signalConnect PkTaskSignal.finished,
            Action.taskSetJob (guint (engine.job + 1)),
            Action.arrayAdd (guint (engine.job + 1)),
            Action.signalEmit SignalId.JOB_LIST_CHANGED
              [GValue.uintArray
                (pk_engine_get_job_list engine ++ [guint (engine.job + 1)])]] }) := by
  simp [pk_engine_new_task, pk_engine_job_list_changed, PkEngine.log, pk_task_new,
    pk_task_set_job, pk_task_get_job, pk_engine_get_job_list, create_job_list_eq_map]

/-- A dispatch call that passes the conflict check: the exact engine it leaves behind
and the identifier it returns. -/
theorem dispatch_ok_spec (op : Operation) (engine : PkEngine)
    (h : op = Operation.updateSystem → update_in_progress engine.array = false) :
    dispatch op engine =
      ({ array := engine.array ++
           [{ job := guint (engine.job + 1)
              status := some (PkTaskStatus.running op.kind) }]
         job := guint (engine.job + 1)
         trace := engine.trace ++
           [Action.taskNew,
            Action.signalConnect PkTaskSignal.jobStatusChanged,
            Action.signalConnect PkTaskSignal.percentageCompleteChanged,
            Action.signalConnect PkTaskSignal.packages,
            Action.signalConnect PkTaskSignal.finished,
            Action.taskSetJob (guint (engine.job + 1)),
            Action.arrayAdd (guint (engine.job + 1)),
            Action.signalEmit SignalId.JOB_LIST_CHANGED
              [GValue.uintArray
                (pk_engine_get_job_list engine ++ [guint (engine.job + 1)])],
            Action.taskStart (guint (engine.job + 1)) op] },
       Except.ok (guint (engine.job + 1))) := by
  cases op <;>
    simp_all [dispatch, pk_engine_get_updates, pk_engine_update_system,
      pk_engine_find_packages, pk_engine_get_dependencies, pk_engine_remove_packages,
      pk_engine_remove_packages_with_dependencies, pk_engine_install_packages,
      new_task_spec, PkEngine.started, pk_task_get_updates, pk_task_update_system,
      pk_task_find_packages, pk_task_get_dependencies, pk_task_remove_packages,
      pk_task_remove_packages_with_dependencies, pk_task_install_packages,
      pk_task_start, pk_task_get_job, Operation.kind]

/-- A rejected update-system call leaves the engine as it was. -/
theorem dispatch_conflict_spec (engine : PkEngine)
    (h : update_in_progress engine.array = true) :
    pk_engine_update_system engine =
      (engine, Except.error
        { code := PkEngineError.PK_ENGINE_ERROR_DENIED
          message := "system update already in progress" }) := by
  simp [pk_engine_update_system, h]

/-- The scan finds an update exactly when some registry entry reports one. -/
theorem update_in_progress_iff (l : List PkTask) :
    update_in_progress l = true ↔
      ∃ task ∈ l, pk_task_get_job_status task = some PK_TASK_STATUS_UPDATE := by
  induction l with
  | nil => simp [update_in_progress]
  | cons t rest ih =>
    unfold update_in_progress
    cases hs : pk_task_get_job_status t with
    | none => simp [hs, ih]
    | some status =>
      by_cases hst : status = PK_TASK_STATUS_UPDATE
      · simp [hs, hst]
      · simp [hs, hst, ih]

/-- Replacing a registry entry by one with the same job identifier keeps the list of
job identifiers. -/
theorem map_job_set (l : List PkTask) (w : Nat) (t t2 : PkTask)
    (hw : l[w]? = some t) (hjob : pk_task_get_job t2 = pk_task_get_job t) :
    (l.set w t2).map pk_task_get_job = l.map pk_task_get_job := by
  induction l generalizing w with
  | nil => simp
  | cons a rest ih =>
    cases w with
    | zero =>
      simp only [List.getElem?_cons_zero, Option.some.injEq] at hw
      subst hw
      simp [hjob]
    | succ n =>
      simp only [List.getElem?_cons_succ] at hw
      simp [ih n hw]

/-- A worker event changes the worker state only, never its job identifier. -/
theorem after_event_job (task : PkTask) (ev : PkTaskEvent) :
    pk_task_get_job (pk_task_after_event task ev) = pk_task_get_job task := by
  cases ev <;> rfl

/-- No callback touches the registry. -/
theorem callback_array (txt : PkTaskStatus → String) (task : PkTask) (ev : PkTaskEvent)
    (engine : PkEngine) :
    (pk_engine_callback txt task ev engine).array = engine.array := by
  cases ev <;> rfl

/-- The registry after a worker event: the emitting entry is replaced by its new
state. -/
theorem emit_array (txt : PkTaskStatus → String) (w : Nat) (ev : PkTaskEvent)
    (engine : PkEngine) :
    (pk_task_emit txt w ev engine).array =
      match engine.array[w]? with
      | none => engine.array
      | some task => engine.array.set w (pk_task_after_event task ev) := by
  unfold pk_task_emit
  cases hw : engine.array[w]? with
  | none => rfl
  | some task => simp [callback_array]

/-- A worker event of any kind leaves the job list alone. -/
theorem emit_job_list (txt : PkTaskStatus → String) (w : Nat) (ev : PkTaskEvent)
    (engine : PkEngine) :
    pk_engine_get_job_list (pk_task_emit txt w ev engine) =
      pk_engine_get_job_list engine := by
  simp only [pk_engine_get_job_list, create_job_list_eq_map, emit_array]
  cases hw : engine.array[w]? with
  | none => rfl
  | some task => exact map_job_set engine.array w task _ hw (after_event_job task ev)

/-- A step appends the identifier it returns, if any, to the job list. -/
theorem step_job_list (txt : PkTaskStatus → String) (st : Step) (engine : PkEngine) :
    pk_engine_get_job_list (step txt st engine).1 =
      pk_engine_get_job_list engine ++ (step txt st engine).2.toList := by
  cases st with
  | event w ev => simp [step, emit_job_list]
  | dispatch op =>
    by_cases hc : op = Operation.updateSystem ∧ update_in_progress engine.array = true
    · obtain ⟨hop, hscan⟩ := hc
      subst hop
      simp [step, dispatch, dispatch_conflict_spec engine hscan]
    · have hok := dispatch_ok_spec op engine (fun hop => by
        cases hscan : update_in_progress engine.array with
        | false => rfl
        | true => exact absurd ⟨hop, hscan⟩ hc)
      simp [step, hok, pk_engine_get_job_list, create_job_list_eq_map, pk_task_get_job]

/-- Unfolding of a run at its first step. -/
theorem run_cons (txt : PkTaskStatus → String) (st : Step) (rest : List Step)
    (engine : PkEngine) :
    run txt (st :: rest) engine =
      ((run txt rest (step txt st engine).1).1,
       (step txt st engine).2.toList ++ (run txt rest (step txt st engine).1).2) := rfl

/-- The job list after a run is the job list before it followed by the returned
identifiers. -/
theorem run_job_list (txt : PkTaskStatus → String) (steps : List Step)
    (engine : PkEngine) :
    pk_engine_get_job_list (run txt steps engine).1 =
      pk_engine_get_job_list engine ++ (run txt steps engine).2 := by
  induction steps generalizing engine with
  | nil => simp [run]
  | cons st rest ih =>
    rw [run_cons]
    simp only [ih, step_job_list, List.append_assoc]

/-- With a handler that does nothing, the `_handled` form of `pk_engine_new_task` is
`pk_engine_new_task`. -/
theorem new_task_handled_id (engine : PkEngine) :
    pk_engine_new_task_handled id engine = pk_engine_new_task engine := rfl

/-- With a handler that does nothing, the `_handled` form of `pk_engine_update_system`
is `pk_engine_update_system`. -/
theorem update_system_handled_id (engine : PkEngine) :
    pk_engine_update_system_handled id engine = pk_engine_update_system engine := by
  unfold pk_engine_update_system_handled pk_engine_update_system
  split
  · rfl
  · simp [new_task_handled_id, new_task_spec, PkEngine.started]

/-- Replacing a registry entry by one that reports an update only if the old entry did
cannot raise the number of entries reporting an update. -/
theorem countP_set_le (p : PkTask → Bool) (l : List PkTask) (w : Nat) (t t2 : PkTask)
    (hw : l[w]? = some t) (hp : p t2 = true → p t = true) :
    (l.set w t2).countP p ≤ l.countP p := by
  induction l generalizing w with
  | nil => simp
  | cons a rest ih =>
    cases w with
    | zero =>
      simp only [List.getElem?_cons_zero, Option.some.injEq] at hw
      subst hw
      simp only [List.set_cons_zero, List.countP_cons]
      by_cases h2 : p t2 = true
      · simp [h2, hp h2]
      · by_cases h1 : p a = true <;> simp [h1, h2]
    | succ n =>
      simp only [List.getElem?_cons_succ] at hw
      simp only [List.set_cons_succ, List.countP_cons]
      have := ih n hw
      omega

/-- The scan finds no update exactly when no registry entry reports one. -/
theorem update_in_progress_false_iff (l : List PkTask) :
    update_in_progress l = false ↔ l.countP reports_update = 0 := by
  rw [List.countP_eq_zero, ← Bool.not_eq_true, update_in_progress_iff]
  simp [reports_update]

/-- Only an update-system request is of the update-system kind. -/
theorem kind_updateSystem_iff (op : Operation) :
    op.kind = OperationKind.updateSystem ↔ op = Operation.updateSystem := by
  cases op <;> simp [Operation.kind]

/-- A step that obeys the worker assumption keeps "at most one worker reports an
update". -/
theorem step_keeps_single_update (txt : PkTaskStatus → String) (st : Step)
    (engine : PkEngine) (hobeys : st.obeys engine = true)
    (hinv : engine.array.countP reports_update ≤ 1) :
    (step txt st engine).1.array.countP reports_update ≤ 1 := by
  cases st with
  | dispatch op =>
    by_cases hc : op = Operation.updateSystem ∧ update_in_progress engine.array = true
    · obtain ⟨hop, hscan⟩ := hc
      subst hop
      simpa [step, dispatch, dispatch_conflict_spec engine hscan] using hinv
    · have hfree : op = Operation.updateSystem →
          update_in_progress engine.array = false := fun hop => by
        cases hscan : update_in_progress engine.array with
        | false => rfl
        | true => exact absurd ⟨hop, hscan⟩ hc
      have hok := dispatch_ok_spec op engine hfree
      simp only [step, hok, List.countP_append, List.countP_singleton]
      by_cases hop : op = Operation.updateSystem
      · have := (update_in_progress_false_iff engine.array).mp (hfree hop)
        split <;> omega
      · have hk : ¬ op.kind = OperationKind.updateSystem :=
          fun hk => hop ((kind_updateSystem_iff op).mp hk)
        simp [reports_update, pk_task_get_job_status, PK_TASK_STATUS_UPDATE, hk, hinv]
  | event w ev =>
    simp only [step, emit_array]
    cases hw : engine.array[w]? with
    | none => exact hinv
    | some task =>
      refine le_trans (countP_set_le reports_update engine.array w task _ hw ?_) hinv
      cases ev with
      | jobStatusChanged status =>
        intro hrep
        have hst : status = PK_TASK_STATUS_UPDATE := by
          simpa [reports_update, pk_task_after_event, pk_task_get_job_status] using hrep
        simpa [Step.obeys, hst, hw] using hobeys
      | finished exit =>
        intro hrep
        simp [reports_update, pk_task_after_event, pk_task_get_job_status,
          PK_TASK_STATUS_UPDATE] at hrep
      | percentageCompleteChanged percentage => exact id
      | packages exit => exact id

/-- A run of steps taken one after the other (no dispatch call made from inside
another) that obey the worker assumption keeps "at most one worker reports an
update". -/
theorem run_keeps_single_update (txt : PkTaskStatus → String) (steps : List Step)
    (engine : PkEngine) (hobeys : obeys txt steps engine = true)
    (hinv : engine.array.countP reports_update ≤ 1) :
    (run txt steps engine).1.array.countP reports_update ≤ 1 := by
  induction steps generalizing engine with
  | nil => simpa [run] using hinv
  | cons st rest ih =>
    rw [run_cons]
    simp only [obeys, Bool.and_eq_true] at hobeys
    exact ih (step txt st engine).1 hobeys.2
      (step_keeps_single_update txt st engine hobeys.1 hinv)

/-! ## The conflict check of update-system -/

/-- C2: in every registry state in which some registered worker reports "running
update-system", `pk_engine_update_system` fails with the conflict error
(`PK_ENGINE_ERROR_DENIED`, "system update already in progress") and allocates nothing:
the job counter, the registry, the log of collaborator calls (so no job-list-changed
emission) and the job list are the same as before the call. -/
theorem C2_update_system_conflict_allocates_nothing (engine : PkEngine)
    (h : ∃ task ∈ engine.array,
      pk_task_get_job_status task = some PK_TASK_STATUS_UPDATE) :
    (pk_engine_update_system engine).2 =
        Except.error
          { code := PkEngineError.PK_ENGINE_ERROR_DENIED
            message := "system update already in progress" }
      ∧ (pk_engine_update_system engine).1.job = engine.job
      ∧ (pk_engine_update_system engine).1.array = engine.array
      ∧ (pk_engine_update_system engine).1.trace = engine.trace
      ∧ emissions (pk_engine_update_system engine).1.trace = emissions engine.trace
      ∧ pk_engine_get_job_list (pk_engine_update_system engine).1 =
          pk_engine_get_job_list engine := by
  have hscan : update_in_progress engine.array = true :=
    (update_in_progress_iff engine.array).mpr h
  rw [dispatch_conflict_spec engine hscan]
  exact ⟨rfl, rfl, rfl, rfl, rfl, rfl⟩

/-- C2 at the engine left by a first update-system call in a fresh process: the second
call is rejected and the job list stays `[1]`. -/
theorem C2_update_system_conflict_witness :
    (∃ task ∈ (pk_engine_update_system pk_engine_init).1.array,
        pk_task_get_job_status task = some PK_TASK_STATUS_UPDATE)
      ∧ ((pk_engine_update_system (pk_engine_update_system pk_engine_init).1).2 =
          Except.error
            { code := PkEngineError.PK_ENGINE_ERROR_DENIED
              message := "system update already in progress" }
        ∧ (pk_engine_update_system (pk_engine_update_system pk_engine_init).1).1.job =
            (pk_engine_update_system pk_engine_init).1.job
        ∧ (pk_engine_update_system (pk_engine_update_system pk_engine_init).1).1.array =
            (pk_engine_update_system pk_engine_init).1.array
        ∧ (pk_engine_update_system (pk_engine_update_system pk_engine_init).1).1.trace =
            (pk_engine_update_system pk_engine_init).1.trace
        ∧ emissions
            (pk_engine_update_system (pk_engine_update_system pk_engine_init).1).1.trace =
            emissions (pk_engine_update_system pk_engine_init).1.trace
        ∧ pk_engine_get_job_list
            (pk_engine_update_system (pk_engine_update_system pk_engine_init).1).1 =
            pk_engine_get_job_list (pk_engine_update_system pk_engine_init).1) :=
  ⟨by decide,
   C2_update_system_conflict_allocates_nothing
     (pk_engine_update_system pk_engine_init).1 (by decide)⟩

/-- C9: in every registry state, also one in which a worker runs update-system, each
dispatch operation other than update-system returns TRUE, appends exactly one new
worker to the registry and hands the caller that worker's newly allocated job
identifier (the incremented counter); it is never rejected. -/
theorem C9_other_dispatch_never_rejected (op : Operation) (engine : PkEngine)
    (h : op ≠ Operation.updateSystem) :
    (dispatch op engine).2 = Except.ok (guint (engine.job + 1))
      ∧ (dispatch op engine).1.array =
          engine.array ++
            [{ job := guint (engine.job + 1)
               status := some (PkTaskStatus.running op.kind) }]
      ∧ (dispatch op engine).1.job = guint (engine.job + 1) := by
  rw [dispatch_ok_spec op engine (fun hop => absurd hop h)]
  exact ⟨rfl, rfl, rfl⟩

/-- C9 while job 1 runs update-system: install-packages is accepted as job 2. -/
theorem C9_other_dispatch_witness :
    Operation.installPackages ["bar"] ≠ Operation.updateSystem
      ∧ ((dispatch (Operation.installPackages ["bar"])
            (pk_engine_update_system pk_engine_init).1).2 =
          Except.ok (guint ((pk_engine_update_system pk_engine_init).1.job + 1))
        ∧ (dispatch (Operation.installPackages ["bar"])
            (pk_engine_update_system pk_engine_init).1).1.array =
            (pk_engine_update_system pk_engine_init).1.array ++
              [{ job := guint ((pk_engine_update_system pk_engine_init).1.job + 1)
                 status := some (PkTaskStatus.running
                   (Operation.installPackages ["bar"]).kind) }]
        ∧ (dispatch (Operation.installPackages ["bar"])
            (pk_engine_update_system pk_engine_init).1).1.job =
            guint ((pk_engine_update_system pk_engine_init).1.job + 1)) :=
  ⟨by simp,
   C9_other_dispatch_never_rejected (Operation.installPackages ["bar"])
     (pk_engine_update_system pk_engine_init).1 (by simp)⟩

/-! ## Registration and its notification -/

/-- C6: every call of `pk_engine_new_task` adds exactly one engine signal emission,
a job-list-changed, and its payload is the full ordered job list of the registry at
that moment: the previous job list followed by the newly assigned identifier. -/
theorem C6_new_task_emits_job_list_changed_once (engine : PkEngine) :
    emissions (pk_engine_new_task engine).2.trace =
        emissions engine.trace ++
          [(SignalId.JOB_LIST_CHANGED,
            [GValue.uintArray (pk_engine_get_job_list (pk_engine_new_task engine).2)])]
      ∧ pk_engine_get_job_list (pk_engine_new_task engine).2 =
          pk_engine_get_job_list engine ++
            [pk_task_get_job (pk_engine_new_task engine).1] := by
  rw [new_task_spec]
  simp [emissions_append, emissions, pk_engine_get_job_list, create_job_list_eq_map,
    pk_task_get_job]

/-- C10: a successful dispatch call makes its collaborator calls in this order: the new
worker is created, the four worker signals are connected, the job identifier is
assigned, the worker is appended to the registry, job-list-changed is emitted with
the list that ends in the new identifier, and only then, last, the worker is told to
start its operation. -/
theorem C10_start_comes_last (op : Operation) (engine : PkEngine) (job : Nat)
    (h : (dispatch op engine).2 = Except.ok job) :
    (dispatch op engine).1.trace =
      engine.trace ++
        [Action.taskNew,
         Action.signalConnect PkTaskSignal.jobStatusChanged,
         Action.signalConnect PkTaskSignal.percentageCompleteChanged,
         Action.signalConnect PkTaskSignal.packages,
         Action.signalConnect PkTaskSignal.finished,
         Action.taskSetJob job,
         Action.arrayAdd job,
         Action.signalEmit SignalId.JOB_LIST_CHANGED
           [GValue.uintArray (pk_engine_get_job_list engine ++ [job])],
         Action.taskStart job op] := by
  by_cases hc : op = Operation.updateSystem ∧ update_in_progress engine.array = true
  · obtain ⟨hop, hscan⟩ := hc
    subst hop
    simp [dispatch, dispatch_conflict_spec engine hscan] at h
  · have hok := dispatch_ok_spec op engine (fun hop => by
      cases hscan : update_in_progress engine.array with
      | false => rfl
      | true => exact absurd ⟨hop, hscan⟩ hc)
    rw [hok] at h ⊢
    simp only [Except.ok.injEq] at h
    subst h
    rfl

/-- C10 for the first update-system call of a fresh process (job 1). -/
theorem C10_start_comes_last_witness :
    (dispatch Operation.updateSystem pk_engine_init).2 = Except.ok 1
      ∧ (dispatch Operation.updateSystem pk_engine_init).1.trace =
          pk_engine_init.trace ++
            [Action.taskNew,
             Action.signalConnect PkTaskSignal.jobStatusChanged,
             Action.signalConnect PkTaskSignal.percentageCompleteChanged,
             Action.signalConnect PkTaskSignal.packages,
             Action.signalConnect PkTaskSignal.finished,
             Action.taskSetJob 1,
             Action.arrayAdd 1,
             Action.signalEmit SignalId.JOB_LIST_CHANGED
               [GValue.uintArray (pk_engine_get_job_list pk_engine_init ++ [1])],
             Action.taskStart 1 Operation.updateSystem] :=
  ⟨rfl, C10_start_comes_last Operation.updateSystem pk_engine_init 1 rfl⟩

/-! ## Job identifiers and the job list -/

/-- C5: after any run of dispatch calls (with any worker events in between, so in
particular with no job finished in between) in a fresh process,
`pk_engine_get_job_list` returns exactly the identifiers the successful calls returned,
in call order; from any other state it returns the previous job list followed by
them. -/
theorem C5_job_list_is_returned_ids_in_order (txt : PkTaskStatus → String)
    (steps : List Step) :
    pk_engine_get_job_list (run txt steps pk_engine_init).1 =
        (run txt steps pk_engine_init).2
      ∧ ∀ engine : PkEngine,
          pk_engine_get_job_list (run txt steps engine).1 =
            pk_engine_get_job_list engine ++ (run txt steps engine).2 := by
  refine ⟨?_, run_job_list txt steps⟩
  rw [run_job_list]
  rfl

/-! ## Update-system requested from a handler -/

/-- C3, the code at the failing input: a handler on the engine's job-list-changed
signal calls `pk_engine_update_system`, and update-system is requested on the fresh
engine. When the handler runs, job 1 is in the registry but not started, so the scan of
the call made by the handler finds no update: that call returns job 2 and starts it,
then the first call starts job 1. Both calls return TRUE and two registered workers
report "running update-system". -/
theorem C3_update_system_from_handler_starts_second_update :
    update_in_progress (pk_engine_new_task pk_engine_init).2.array = false
      ∧ (pk_engine_update_system (pk_engine_new_task pk_engine_init).2).2 = Except.ok 2
      ∧ (pk_engine_update_system_handled (fun e => (pk_engine_update_system e).1)
          pk_engine_init).2 = Except.ok 1
      ∧ pk_engine_get_job_list
          (pk_engine_update_system_handled (fun e => (pk_engine_update_system e).1)
            pk_engine_init).1 = [1, 2]
      ∧ (pk_engine_update_system_handled (fun e => (pk_engine_update_system e).1)
          pk_engine_init).1.array.map reports_update = [true, true]
      ∧ (pk_engine_update_system_handled (fun e => (pk_engine_update_system e).1)
          pk_engine_init).1.array.countP reports_update = 2 :=
  ⟨by decide, rfl, rfl, by decide, by decide, by decide⟩

/-! ## Worker events and queries -/

/-- C4, the code at the failing input: update-system is dispatched in a fresh process
as job 1, its worker (registry entry 0) emits finished and `pk_engine_finished_cb`
runs; the job list is still `[1]`, not empty: the finished job is not reclaimed. -/
theorem C4_finished_job_still_listed :
    (pk_engine_update_system pk_engine_init).2 = Except.ok 1
      ∧ pk_engine_get_job_list
          (pk_task_emit (fun _ => "") 0 (PkTaskEvent.finished PkTaskExit.success)
            (pk_engine_update_system pk_engine_init).1) = [1]
      ∧ 1 ∈ pk_engine_get_job_list
          (pk_task_emit (fun _ => "") 0 (PkTaskEvent.finished PkTaskExit.success)
            (pk_engine_update_system pk_engine_init).1) :=
  ⟨rfl, by decide, by decide⟩

/-- C7, the code at the failing input: with job 1 the only registered job, the query
`pk_engine_get_job_status` for job 7 (never registered) returns TRUE, with no error and
neither status nor package written. -/
theorem C7_unknown_job_reported_ok :
    pk_engine_get_job_list (pk_engine_get_updates pk_engine_init).1 = [1]
      ∧ 7 ∉ pk_engine_get_job_list (pk_engine_get_updates pk_engine_init).1
      ∧ pk_engine_get_job_status (pk_engine_get_updates pk_engine_init).1 7 =
          Except.ok none
      ∧ ¬ ∃ e : GError,
          pk_engine_get_job_status (pk_engine_get_updates pk_engine_init).1 7 =
            Except.error e :=
  ⟨by decide, by decide, rfl, by
    rintro ⟨e, he⟩
    cases he⟩

/-- C8, the code at the failing input: job 1 is registered by get-updates in a fresh
process (registry entry 0). Its percentage-complete-changed, packages and finished
events make the engine emit nothing, while its job-status-changed event is re-emitted
once as job-status-changed with job identifier 1, the status text and the package
"foo". -/
theorem C8_only_status_changed_is_relayed :
    (pk_engine_get_updates pk_engine_init).2 = Except.ok 1
      ∧ emissions
          (pk_task_emit (fun _ => "query") 0 (PkTaskEvent.percentageCompleteChanged 50)
            (pk_engine_get_updates pk_engine_init).1).trace =
          emissions (pk_engine_get_updates pk_engine_init).1.trace
      ∧ emissions
          (pk_task_emit (fun _ => "query") 0 (PkTaskEvent.packages PkTaskExit.success)
            (pk_engine_get_updates pk_engine_init).1).trace =
          emissions (pk_engine_get_updates pk_engine_init).1.trace
      ∧ emissions
          (pk_task_emit (fun _ => "query") 0 (PkTaskEvent.finished PkTaskExit.success)
            (pk_engine_get_updates pk_engine_init).1).trace =
          emissions (pk_engine_get_updates pk_engine_init).1.trace
      ∧ emissions
          (pk_task_emit (fun _ => "query") 0
            (PkTaskEvent.jobStatusChanged
              (PkTaskStatus.running OperationKind.getUpdates))
            (pk_engine_get_updates pk_engine_init).1).trace =
          emissions (pk_engine_get_updates pk_engine_init).1.trace ++
            [(SignalId.JOB_STATUS_CHANGED,
              [GValue.uint 1, GValue.string "query", GValue.string "foo"])] :=
  ⟨rfl, rfl, rfl, rfl, rfl⟩

end PackageKit
